import Mathlib

/-!
Shallow embedding of the galaxy cross-matching core of `src/nb/ellipse.ipynb`:
the spherical point-in-ellipse test `in_ellipse` (cell-4), the great-circle
distance `great_circle_distance` (cell-5), and the matching loop of cell-12
with its sentinel/NaN default substitution and its in-place update of the
matched record (`match = galaxy` aliases the dictionary, so the loop writes
`distance_arcsec` into the caller's record).  Machine floats are modelled as
real numbers; a raw catalogue shape field that may carry the NaN marker is
modelled by `RVal`.
-/

namespace Ellipse

noncomputable section

open Real

/-- degree-to-radian factor, `DEGRA = np.pi / 180.0` in the source. -/
def DEGRA : ℝ := π / 180

/-- value of a raw catalogue shape field: an ordinary (finite) float,
or the not-a-number marker. -/
inductive RVal where
  | fin (x : ℝ)
  | nan

/-- default substitution step of the matching loop (cell-12):
`if (v < -990) or np.isnan(v): v = dflt`.  NaN compares false against
`-990` in IEEE semantics but is caught by the `np.isnan` branch, so a NaN
field is always replaced; a finite field is replaced exactly when it is
below `-990`. -/
def substDefault (v : RVal) (dflt : ℝ) : ℝ :=
  match v with
  | .nan => dflt
  | .fin x => if x < -990 then dflt else x

/-- the chain `t2 .. t63` of cell-4, as a function of the sines and cosines
`t1, t22, t3, t32, t6, t26, t9, t55, t13, t24` and of `t61 = e * e`. -/
def t63core (t1 t22 t3 t32 t6 t26 t9 t55 t13 t24 t61 : ℝ) : ℝ :=
  let t2 := t1 * t1
  let t4 := t3 * t3
  let t5 := t2 * t4
  let t7 := t6 * t6
  let t8 := t5 * t7
  let t10 := t9 * t9
  let t11 := t7 * t10
  let t14 := t13 * t13
  let t15 := t14 * t10
  let t18 := t7 * t14
  let t19 := t18 * t10
  let t31 := t1 * t3
  let t36 := 2 * t31 * t32 * t26 * t6
  let t37 := t31 * t32
  let t38 := t26 * t6
  let t45 := t4 * t10
  let t56 := t55 * t55
  let t57 := t4 * t7
  let t60 := -t8 + t5 * t11 + 2 * t5 * t15 - t5 * t19 -
      2 * t1 * t4 * t22 * t10 * t24 * t13 * t26 - t36 +
      2 * t37 * t38 * t10 - 2 * t37 * t38 * t15 - t45 * t14 - t45 * t2 +
      2 * t22 * t3 * t32 * t6 * t24 * t10 * t13 - t56 + t7 - t11 + t4 - t57 +
      t57 * t10 + t19 - t18 * t45
  t60 * t61 + t8 + t57 - t4 - t7 + t56 + t36

/-- the polynomial value `t63` of cell-4 as a function of the raw degree
inputs of `in_ellipse`: degrees are converted through `DEGRA`, the
eccentricity is `e = sqrt(1 - b2a * b2a)`, and the chain `t1 .. t63`
is `t63core` applied to the sines and cosines. -/
def in_ellipse_t63 (alpha delta0 alpha1 delta01 d0 b2a PA0 : ℝ) : ℝ :=
  let d_alpha := (alpha1 - alpha) * DEGRA
  let delta1 := delta01 * DEGRA
  let delta := delta0 * DEGRA
  let PA := PA0 * DEGRA
  let d := d0 * DEGRA
  let e := Real.sqrt (1 - b2a * b2a)
  t63core (cos d_alpha) (sin d_alpha) (cos delta1) (sin delta1)
    (cos delta) (sin delta) (cos d) (sin d) (cos PA) (sin PA) (e * e)

/-- the fast-reject hemisphere quantity `t3 * t6 * t1 + t32 * t26` of
cell-4: the dot product of the unit vectors of the ellipse centre and of
the query point. -/
def in_ellipse_proxy (alpha delta0 alpha1 delta01 : ℝ) : ℝ :=
  cos (delta01 * DEGRA) * cos (delta0 * DEGRA) * cos ((alpha1 - alpha) * DEGRA) +
    sin (delta01 * DEGRA) * sin (delta0 * DEGRA)

/-- the point-in-ellipse test of cell-4 (`in_ellipse`): if the hemisphere
quantity is negative the function returns `False` at once; otherwise the
point is inside exactly when `t63 > 0`. -/
def in_ellipse (alpha delta0 alpha1 delta01 d0 b2a PA0 : ℝ) : Bool :=
  if in_ellipse_proxy alpha delta0 alpha1 delta01 < 0 then false
  else decide (in_ellipse_t63 alpha delta0 alpha1 delta01 d0 b2a PA0 > 0)

/-- two-argument arctangent, following the branch semantics of
`np.arctan2 y x`. -/
def arctan2 (y x : ℝ) : ℝ :=
  if 0 < x then arctan (y / x)
  else if x < 0 then
    (if 0 ≤ y then arctan (y / x) + π else arctan (y / x) - π)
  else
    (if 0 < y then π / 2 else if y < 0 then -(π / 2) else 0)

/-- the great-circle distance of cell-5 (`great_circle_distance`), in
degrees, via the two-argument-arctangent formula of the source. -/
def great_circle_distance (ra1_deg dec1_deg ra2_deg dec2_deg : ℝ) : ℝ :=
  let ra1 := ra1_deg * DEGRA
  let dec1 := dec1_deg * DEGRA
  let ra2 := ra2_deg * DEGRA
  let dec2 := dec2_deg * DEGRA
  let delta_ra := |ra2 - ra1|
  let distance := arctan2
    (Real.sqrt ((cos dec2 * sin delta_ra) ^ 2 +
      (cos dec1 * sin dec2 - sin dec1 * cos dec2 * cos delta_ra) ^ 2))
    (sin dec1 * sin dec2 + cos dec1 * cos dec2 * cos delta_ra)
  distance * 180 / π

/-- rounding to two decimal places, `round(x, 2)`.  Mathlib's `round` is
half-up while Python rounds half to even; the two agree away from exact
ties, and no value considered below sits on a tie. -/
def round2 (x : ℝ) : ℝ :=
  ((round (x * 100) : ℤ) : ℝ) / 100

/-- the nested `coordinates` dictionary of a catalogue record: the loop of
cell-12 inserts the key `distance_arcsec` into it, so the field is an
`Option` that starts out `none`. -/
structure Coordinates where
  radec_str : List String
  distance_arcsec : Option ℝ

/-- a galaxy record as projected by the catalogue query of cell-8: centre
position, the three shape fields (which may carry the `-999` sentinel or
NaN), and pass-through display fields. -/
structure GalaxyRecord where
  oid : ℤ
  name : String
  ra : ℝ
  dec : ℝ
  a : RVal
  b2a : RVal
  pa : RVal
  coordinates : Coordinates

/-- the ellipse decision of one iteration of the matching loop: default
substitution applied to the three shape fields, the semi-major axis scaled
by `size_margin`, then `in_ellipse`. -/
def galaxyPass (ra dec size_margin : ℝ) (galaxy : GalaxyRecord) : Bool :=
  in_ellipse ra dec galaxy.ra galaxy.dec
    (size_margin * substDefault galaxy.a 0.0265889)
    (substDefault galaxy.b2a 0.61)
    (substDefault galaxy.pa 86.0)

/-- the state of a matched record after the loop body ran on it: the same
record with `distance_arcsec` written into its `coordinates` dictionary.
Because `match = galaxy` merely aliases, this is also the record the loop
appends to `matches`. -/
def matchedRecord (ra dec : ℝ) (galaxy : GalaxyRecord) : GalaxyRecord :=
  { galaxy with
    coordinates :=
      { galaxy.coordinates with
        distance_arcsec :=
          some (round2 (great_circle_distance ra dec galaxy.ra galaxy.dec * 3600)) } }

/-- one iteration of the matching loop of cell-12: extract the shape
fields, substitute defaults for sentinel/NaN values, test the ellipse, and
on a match write `distance_arcsec` in place.  Returns the record's state
after the iteration together with the test result. -/
def processGalaxy (ra dec size_margin : ℝ) (galaxy : GalaxyRecord) :
    GalaxyRecord × Bool :=
  let alpha1 := galaxy.ra
  let delta01 := galaxy.dec
  let d0 := substDefault galaxy.a 0.0265889
  let b2a := substDefault galaxy.b2a 0.61
  let PA0 := substDefault galaxy.pa 86.0
  let in_galaxy := in_ellipse ra dec alpha1 delta01 (size_margin * d0) b2a PA0
  if in_galaxy then
    (matchedRecord ra dec galaxy, true)
  else
    (galaxy, false)

/-- the matching loop of cell-12 over the candidate sequence: first
component is the post-loop state of every input record (in order), second
component the `matches` list the loop builds. -/
def matchLoop (ra dec size_margin : ℝ) :
    List GalaxyRecord → List GalaxyRecord × List GalaxyRecord
  | [] => ([], [])
  | galaxy :: rest =>
    let p := processGalaxy ra dec size_margin galaxy
    let r := matchLoop ra dec size_margin rest
    (p.1 :: r.1, if p.2 then p.1 :: r.2 else r.2)

/-- with `t61 = 0` (zero eccentricity, a circle) the polynomial collapses
to the square of the hemisphere dot product minus `cos^2 d`. -/
lemma t63core_circle (t1 t22 t3 t32 t6 t26 t9 t55 t13 t24 : ℝ)
    (h2 : t32 ^ 2 + t3 ^ 2 = 1) (h3 : t26 ^ 2 + t6 ^ 2 = 1)
    (h4 : t55 ^ 2 + t9 ^ 2 = 1) :
    t63core t1 t22 t3 t32 t6 t26 t9 t55 t13 t24 0 =
      (t3 * t6 * t1 + t32 * t26) ^ 2 - t9 ^ 2 := by
  simp only [t63core]
  linear_combination (-t26 ^ 2) * h2 + (t3 ^ 2 - 1) * h3 + h4

/-- at the centre (`t1 = 1`, `t22 = 0`, point declination equal to centre
declination) the polynomial is `(1 - e^2) sin^2 d`. -/
lemma t63core_center (t3 t32 t9 t55 t13 t24 E : ℝ)
    (h2 : t32 ^ 2 + t3 ^ 2 = 1) :
    t63core 1 0 t3 t32 t3 t32 t9 t55 t13 t24 E = (1 - E) * t55 ^ 2 := by
  simp only [t63core]
  linear_combination (2 * t3 ^ 2 - 2 * t3 ^ 2 * E + 2 * t3 ^ 2 * t9 ^ 2 * E -
    2 * t3 ^ 2 * t9 ^ 2 * t13 ^ 2 * E) * h2

/-- the polynomial is affine in `cos^2 d` with a coefficient that is
minus a convex combination of `1` and a square: changing only the scaled
axis `d` changes `t63` by that coefficient times the change of `cos^2 d`. -/
lemma t63core_d_diff (t1 t22 t3 t32 t6 t26 t9 t55 u9 u55 t13 t24 E : ℝ)
    (h1 : t22 ^ 2 + t1 ^ 2 = 1) (h2 : t32 ^ 2 + t3 ^ 2 = 1)
    (h3 : t26 ^ 2 + t6 ^ 2 = 1) (h4 : t55 ^ 2 + t9 ^ 2 = 1)
    (h5 : t24 ^ 2 + t13 ^ 2 = 1) (h6 : u55 ^ 2 + u9 ^ 2 = 1) :
    t63core t1 t22 t3 t32 t6 t26 u9 u55 t13 t24 E -
        t63core t1 t22 t3 t32 t6 t26 t9 t55 t13 t24 E =
      (-(1 - E) - E * (t13 * (t22 * t3) + t24 * (t1 * t3 * t26 - t32 * t6)) ^ 2) *
        (u9 ^ 2 - t9 ^ 2) := by
  simp only [t63core]
  linear_combination
    (t3 ^ 2 * t13 ^ 2 * E * (u9 ^ 2 - t9 ^ 2)) * h1 +
    (t6 ^ 2 * t24 ^ 2 * E * (u9 ^ 2 - t9 ^ 2)) * h2 +
    (t1 ^ 2 * t3 ^ 2 * t24 ^ 2 * E * (u9 ^ 2 - t9 ^ 2)) * h3 +
    (E - 1) * h4 +
    (E * (u9 ^ 2 - t9 ^ 2) * (t6 ^ 2 - t3 ^ 2 * t6 ^ 2 - 2 * t1 * t3 * t32 * t6 * t26 +
      t1 ^ 2 * t3 ^ 2 - t1 ^ 2 * t3 ^ 2 * t6 ^ 2)) * h5 +
    (1 - E) * h6

/-- for a circle (`b2a = 1`) the polynomial equals the squared hemisphere
dot product minus `cos^2` of the scaled radius in radians. -/
lemma in_ellipse_t63_circle (alpha delta0 alpha1 delta01 d0 PA0 : ℝ) :
    in_ellipse_t63 alpha delta0 alpha1 delta01 d0 1 PA0 =
      in_ellipse_proxy alpha delta0 alpha1 delta01 ^ 2 - cos (d0 * DEGRA) ^ 2 := by
  have he : Real.sqrt (1 - (1 : ℝ) * 1) = 0 := by norm_num
  simp only [in_ellipse_t63, in_ellipse_proxy, he, mul_zero]
  exact t63core_circle _ _ _ _ _ _ _ _ _ _
    (sin_sq_add_cos_sq _) (sin_sq_add_cos_sq _) (sin_sq_add_cos_sq _)

/-- when the query point coincides with the ellipse centre the polynomial
is `(1 - e^2) sin^2 d`. -/
lemma in_ellipse_t63_center (alpha delta0 d0 b2a PA0 : ℝ) :
    in_ellipse_t63 alpha delta0 alpha delta0 d0 b2a PA0 =
      (1 - Real.sqrt (1 - b2a * b2a) * Real.sqrt (1 - b2a * b2a)) *
        sin (d0 * DEGRA) ^ 2 := by
  simp only [in_ellipse_t63, sub_self, zero_mul, Real.cos_zero, Real.sin_zero]
  exact t63core_center _ _ _ _ _ _ _ (sin_sq_add_cos_sq _)

/-- at the centre the hemisphere dot product is `1`. -/
lemma in_ellipse_proxy_center (alpha delta0 : ℝ) :
    in_ellipse_proxy alpha delta0 alpha delta0 = 1 := by
  simp only [in_ellipse_proxy, sub_self, zero_mul, Real.cos_zero, mul_one]
  linear_combination sin_sq_add_cos_sq (delta0 * DEGRA)

/-- the squared eccentricity `e * e` is nonnegative and at most one. -/
lemma e_sq_le_one (b2a : ℝ) :
    Real.sqrt (1 - b2a * b2a) * Real.sqrt (1 - b2a * b2a) ≤ 1 := by
  have h1 : Real.sqrt (1 - b2a * b2a) ≤ 1 := by
    calc Real.sqrt (1 - b2a * b2a) ≤ Real.sqrt 1 :=
          Real.sqrt_le_sqrt (by nlinarith [mul_self_nonneg b2a])
      _ = 1 := Real.sqrt_one
  have h0 : 0 ≤ Real.sqrt (1 - b2a * b2a) := Real.sqrt_nonneg _
  nlinarith

/-- unfolding of the boolean test: inside means the hemisphere test does
not fire and `t63` is positive. -/
lemma in_ellipse_eq_true_iff (alpha delta0 alpha1 delta01 d0 b2a PA0 : ℝ) :
    in_ellipse alpha delta0 alpha1 delta01 d0 b2a PA0 = true ↔
      ¬ in_ellipse_proxy alpha delta0 alpha1 delta01 < 0 ∧
        0 < in_ellipse_t63 alpha delta0 alpha1 delta01 d0 b2a PA0 := by
  by_cases hp : in_ellipse_proxy alpha delta0 alpha1 delta01 < 0
  · simp [in_ellipse, hp]
  · simp [in_ellipse, hp]

/-- a circle strictly smaller than a half sphere contains its centre. -/
lemma in_ellipse_center_circle (alpha delta0 d0 PA0 : ℝ)
    (h0 : 0 < d0) (h180 : d0 < 180) :
    in_ellipse alpha delta0 alpha delta0 d0 1 PA0 = true := by
  rw [in_ellipse_eq_true_iff]
  refine ⟨by rw [in_ellipse_proxy_center]; norm_num, ?_⟩
  rw [in_ellipse_t63_center]
  have he : Real.sqrt (1 - (1 : ℝ) * 1) = 0 := by norm_num
  rw [he]
  have hpi : (0 : ℝ) < π / 180 := by positivity
  have hd : 0 < d0 * DEGRA := by unfold DEGRA; exact mul_pos h0 hpi
  have hd2 : d0 * DEGRA < π := by
    unfold DEGRA
    calc d0 * (π / 180) < 180 * (π / 180) := by
          exact mul_lt_mul_of_pos_right h180 hpi
      _ = π := by ring
  have hs : 0 < sin (d0 * DEGRA) := sin_pos_of_pos_of_lt_pi hd hd2
  nlinarith

/-- one loop iteration, written through the decision `galaxyPass` and the
updated record `matchedRecord`. -/
lemma processGalaxy_eq (ra dec m : ℝ) (g : GalaxyRecord) :
    processGalaxy ra dec m g =
      (if galaxyPass ra dec m g then matchedRecord ra dec g else g,
        galaxyPass ra dec m g) := by
  unfold processGalaxy galaxyPass
  cases h : in_ellipse ra dec g.ra g.dec (m * substDefault g.a 0.0265889)
      (substDefault g.b2a 0.61) (substDefault g.pa 86.0) <;> simp [h]

/-- writing `distance_arcsec` does not change the fields the ellipse
decision reads, so the decision on an updated record is unchanged. -/
lemma galaxyPass_matchedRecord (ra dec m ra' dec' : ℝ) (g : GalaxyRecord) :
    galaxyPass ra dec m (matchedRecord ra' dec' g) = galaxyPass ra dec m g := rfl

/-- the post-loop state of the input records: matched records carry the
written distance, unmatched records are untouched. -/
lemma matchLoop_fst (ra dec m : ℝ) (gs : List GalaxyRecord) :
    (matchLoop ra dec m gs).1 =
      gs.map (fun g => if galaxyPass ra dec m g then matchedRecord ra dec g else g) := by
  induction gs with
  | nil => rfl
  | cons g gs ih => simp [matchLoop, processGalaxy_eq, ih]

/-- the `matches` list is the stable filter of the candidates by the
ellipse decision, each record carrying its written distance. -/
lemma matchLoop_snd (ra dec m : ℝ) (gs : List GalaxyRecord) :
    (matchLoop ra dec m gs).2 =
      (gs.filter (fun g => galaxyPass ra dec m g)).map (matchedRecord ra dec) := by
  induction gs with
  | nil => rfl
  | cons g gs ih =>
    cases h : galaxyPass ra dec m g <;>
      simp [matchLoop, processGalaxy_eq, h, ih, List.filter_cons]

/-- the emitted matches are exactly the post-loop states of the records
that pass (the loop appends the aliased, already-updated record). -/
lemma matchLoop_snd_eq_fst_filter (ra dec m : ℝ) (gs : List GalaxyRecord) :
    (matchLoop ra dec m gs).2 =
      ((matchLoop ra dec m gs).1).filter (fun g => galaxyPass ra dec m g) := by
  induction gs with
  | nil => rfl
  | cons g gs ih =>
    cases h : galaxyPass ra dec m g <;>
      simp [matchLoop, processGalaxy_eq, h, ih, List.filter_cons,
        galaxyPass_matchedRecord]

/-- C1.  Each of the three shape fields is tested independently: a value
below `-990` or NaN is replaced by its fixed default (`a = 0.0265889`,
`b2a = 0.61`, `pa = 86.0`) before `in_ellipse` is called, a value that is
neither is passed through unchanged; in particular a candidate with
`a = -999, b2a = NaN, pa = -999` is evaluated exactly as if all three
fields held their defaults. -/
theorem claim1_default_substitution :
    (∀ (x dflt : ℝ), x < -990 → substDefault (RVal.fin x) dflt = dflt) ∧
    (∀ dflt : ℝ, substDefault RVal.nan dflt = dflt) ∧
    (∀ (x dflt : ℝ), ¬ x < -990 → substDefault (RVal.fin x) dflt = x) ∧
    (∀ (ra dec m : ℝ) (g : GalaxyRecord),
      (processGalaxy ra dec m g).2 =
        in_ellipse ra dec g.ra g.dec (m * substDefault g.a 0.0265889)
          (substDefault g.b2a 0.61) (substDefault g.pa 86.0)) ∧
    (∀ (ra dec m : ℝ) (g : GalaxyRecord),
      g.a = RVal.fin (-999) → g.b2a = RVal.nan → g.pa = RVal.fin (-999) →
      (processGalaxy ra dec m g).2 =
        in_ellipse ra dec g.ra g.dec (m * 0.0265889) 0.61 86.0) := by
  refine ⟨?_, ?_, ?_, ?_, ?_⟩
  · intro x dflt h; simp [substDefault, h]
  · intro dflt; rfl
  · intro x dflt h; simp [substDefault, h]
  · intro ra dec m g; rw [processGalaxy_eq]; rfl
  · intro ra dec m g ha hb hp
    rw [processGalaxy_eq]
    show galaxyPass ra dec m g = _
    rw [galaxyPass, ha, hb, hp]
    norm_num [substDefault]

/-- witness for C1 at concrete inputs: the sentinel `-999` and NaN are
replaced by the defaults, an ordinary value `30` passes through, and the
sentinel/NaN record is tested exactly at the default parameters. -/
theorem claim1_default_substitution_witness :
    substDefault (RVal.fin (-999)) 0.0265889 = 0.0265889 ∧
    substDefault RVal.nan 0.61 = 0.61 ∧
    substDefault (RVal.fin 30) 0.0265889 = 30 ∧
    (processGalaxy 0 0 3
        ⟨1, "CGCG 146-027", 0, 0, RVal.fin (-999), RVal.nan, RVal.fin (-999),
          ⟨[], none⟩⟩).2 =
      in_ellipse 0 0 0 0 (3 * 0.0265889) 0.61 86.0 :=
  ⟨claim1_default_substitution.1 (-999) 0.0265889 (by norm_num),
   claim1_default_substitution.2.1 0.61,
   claim1_default_substitution.2.2.1 30 0.0265889 (by norm_num),
   claim1_default_substitution.2.2.2.2 0 0 3
     ⟨1, "CGCG 146-027", 0, 0, RVal.fin (-999), RVal.nan, RVal.fin (-999),
       ⟨[], none⟩⟩ rfl rfl rfl⟩

/-- C2.  If the hemisphere dot product
`cos(dec1) cos(dec) cos(ra1-ra) + sin(dec1) sin(dec)` is strictly
negative, `in_ellipse` returns false regardless of the scaled axis `d0`
(the polynomial's sign is never consulted). -/
theorem claim2_hemisphere_fast_reject (alpha delta0 alpha1 delta01 d0 b2a PA0 : ℝ)
    (h : cos (delta01 * DEGRA) * cos (delta0 * DEGRA) * cos ((alpha1 - alpha) * DEGRA) +
        sin (delta01 * DEGRA) * sin (delta0 * DEGRA) < 0) :
    in_ellipse alpha delta0 alpha1 delta01 d0 b2a PA0 = false := by
  have h' : in_ellipse_proxy alpha delta0 alpha1 delta01 < 0 := h
  simp [in_ellipse, h']

/-- witness for C2: the point at the north pole against an ellipse centred
at the south pole is rejected even for a huge scaled axis. -/
theorem claim2_hemisphere_fast_reject_witness :
    cos ((-90 : ℝ) * DEGRA) * cos ((90 : ℝ) * DEGRA) * cos (((0 : ℝ) - 0) * DEGRA) +
      sin ((-90 : ℝ) * DEGRA) * sin ((90 : ℝ) * DEGRA) < 0 ∧
    in_ellipse 0 90 0 (-90) 1000000 0.5 0 = false := by
  have h : cos ((-90 : ℝ) * DEGRA) * cos ((90 : ℝ) * DEGRA) * cos (((0 : ℝ) - 0) * DEGRA) +
      sin ((-90 : ℝ) * DEGRA) * sin ((90 : ℝ) * DEGRA) < 0 := by
    rw [show ((-90 : ℝ)) * DEGRA = -(π / 2) by unfold DEGRA; ring,
      show ((90 : ℝ)) * DEGRA = π / 2 by unfold DEGRA; ring,
      show (((0 : ℝ) - 0)) * DEGRA = 0 by ring]
    simp
  exact ⟨h, claim2_hemisphere_fast_reject 0 90 0 (-90) 1000000 0.5 0 h⟩

/-- counterexample to C3 as stated: for a point on the far hemisphere with
a very large scaled axis (`d0 = 270` degrees) the polynomial is positive,
`t63 = 1/4 > 0`, yet `in_ellipse` returns false because the hemisphere
fast-reject fires first. -/
theorem claim3_sign_rule_counterexample :
    0 < in_ellipse_t63 0 90 0 (-90) 270 (1 / 2) 0 ∧
    in_ellipse 0 90 0 (-90) 270 (1 / 2) 0 = false := by
  constructor
  · have e2 : Real.sqrt (1 - (1 / 2 : ℝ) * (1 / 2)) *
        Real.sqrt (1 - (1 / 2 : ℝ) * (1 / 2)) = 3 / 4 := by
      rw [Real.mul_self_sqrt (by norm_num : (0 : ℝ) ≤ 1 - (1 / 2 : ℝ) * (1 / 2))]
      norm_num
    have hda : ((0 : ℝ) - 0) * DEGRA = 0 := by ring
    have h90 : (90 : ℝ) * DEGRA = π / 2 := by unfold DEGRA; ring
    have hm90 : (-90 : ℝ) * DEGRA = -(π / 2) := by unfold DEGRA; ring
    have h270 : (270 : ℝ) * DEGRA = π + π / 2 := by unfold DEGRA; ring
    have h0 : (0 : ℝ) * DEGRA = 0 := by ring
    simp only [in_ellipse_t63, hda, h90, hm90, h270, h0, e2,
      Real.cos_zero, Real.sin_zero, Real.cos_neg, Real.sin_neg,
      Real.cos_pi_div_two, Real.sin_pi_div_two, Real.cos_add, Real.sin_add,
      Real.cos_pi, Real.sin_pi]
    simp only [t63core]
    norm_num
  · have hp : in_ellipse_proxy 0 90 0 (-90) < 0 := by
      rw [in_ellipse_proxy,
        show ((-90 : ℝ)) * DEGRA = -(π / 2) by unfold DEGRA; ring,
        show ((90 : ℝ)) * DEGRA = π / 2 by unfold DEGRA; ring,
        show (((0 : ℝ) - 0)) * DEGRA = 0 by ring]
      simp
    simp [in_ellipse, hp]

/-- C3, amended.  Provided the hemisphere dot product is nonnegative,
`in_ellipse` returns true exactly when `t63 > 0`; a point with `t63 = 0`
(exactly on the boundary) is classified as not inside, unconditionally. -/
theorem claim3_sign_rule (alpha delta0 alpha1 delta01 d0 b2a PA0 : ℝ) :
    (0 ≤ in_ellipse_proxy alpha delta0 alpha1 delta01 →
      (in_ellipse alpha delta0 alpha1 delta01 d0 b2a PA0 = true ↔
        0 < in_ellipse_t63 alpha delta0 alpha1 delta01 d0 b2a PA0)) ∧
    (in_ellipse_t63 alpha delta0 alpha1 delta01 d0 b2a PA0 = 0 →
      in_ellipse alpha delta0 alpha1 delta01 d0 b2a PA0 = false) := by
  constructor
  · intro hp
    rw [in_ellipse_eq_true_iff]
    exact ⟨fun h => h.2, fun h => ⟨not_lt.mpr hp, h⟩⟩
  · intro h0
    by_cases hp : in_ellipse_proxy alpha delta0 alpha1 delta01 < 0
    · simp [in_ellipse, hp]
    · simp [in_ellipse, hp, h0]

/-- witness for C3 (amended): at the centre of a `d0 = 90` circle the
polynomial is `1 > 0` and the test accepts; at `d0 = 180` the polynomial
is exactly `0` and the test rejects. -/
theorem claim3_sign_rule_witness :
    in_ellipse 0 0 0 0 90 1 0 = true ∧ in_ellipse 0 0 0 0 180 1 0 = false := by
  constructor
  · have hp : (0 : ℝ) ≤ in_ellipse_proxy 0 0 0 0 := by
      rw [in_ellipse_proxy_center]; norm_num
    refine ((claim3_sign_rule 0 0 0 0 90 1 0).1 hp).mpr ?_
    rw [in_ellipse_t63_center,
      show ((90 : ℝ)) * DEGRA = π / 2 by unfold DEGRA; ring,
      Real.sin_pi_div_two,
      show Real.sqrt (1 - (1 : ℝ) * 1) = 0 by norm_num]
    norm_num
  · refine (claim3_sign_rule 0 0 0 0 180 1 0).2 ?_
    rw [in_ellipse_t63_center,
      show ((180 : ℝ)) * DEGRA = π by unfold DEGRA; ring,
      Real.sin_pi]
    ring

/-- the big-circle record used by the counterexample to C5: a `b2a = 1`
galaxy whose centre coincides with the query point, so it matches. -/
def gCircle : GalaxyRecord :=
  { oid := 596900, name := "PGC2557", ra := 0, dec := 0,
    a := RVal.fin 30, b2a := RVal.fin 1, pa := RVal.fin 0,
    coordinates := { radec_str := [], distance_arcsec := none } }

/-- the ellipse decision on `gCircle` from the query point at its centre
with margin 3. -/
lemma galaxyPass_gCircle : galaxyPass 0 0 3 gCircle = true := by
  show in_ellipse 0 0 gCircle.ra gCircle.dec
      (3 * substDefault gCircle.a 0.0265889) (substDefault gCircle.b2a 0.61)
      (substDefault gCircle.pa 86.0) = true
  have ha : substDefault gCircle.a 0.0265889 = 30 := by
    norm_num [substDefault, gCircle]
  have hb : substDefault gCircle.b2a 0.61 = 1 := by
    norm_num [substDefault, gCircle]
  have hp : substDefault gCircle.pa 86.0 = 0 := by
    norm_num [substDefault, gCircle]
  rw [ha, hb, hp, show (3 : ℝ) * 30 = 90 by norm_num]
  exact in_ellipse_center_circle gCircle.ra gCircle.dec 90 0 (by norm_num) (by norm_num)

/-- counterexample to C5 as stated: the loop mutates the caller's records;
after running on the single matching candidate `gCircle` the input record
no longer holds its original value (its `coordinates` dictionary gained
`distance_arcsec`). -/
theorem claim5_no_mutation_counterexample :
    (matchLoop 0 0 3 [gCircle]).1 ≠ [gCircle] := by
  intro hcontra
  rw [matchLoop_fst] at hcontra
  simp only [List.map_cons, List.map_nil, galaxyPass_gCircle, if_true,
    List.cons.injEq, and_true] at hcontra
  have h3 := congrArg (fun r : GalaxyRecord => r.coordinates.distance_arcsec) hcontra
  simp [matchedRecord, gCircle] at h3

/-- C5, amended.  The matching loop aliases rather than copies: for each
matched candidate it writes `distance_arcsec` into the candidate's own
`coordinates`, so after the call that record differs from its pre-call
value in exactly that field, while all its other fields — and unmatched
candidates entirely — are unchanged; the emitted matches are those same
updated records. -/
theorem claim5_records_mutated (ra dec m : ℝ) (gs : List GalaxyRecord) :
    (matchLoop ra dec m gs).1 =
      gs.map (fun g => if galaxyPass ra dec m g then matchedRecord ra dec g else g) ∧
    (matchLoop ra dec m gs).2 =
      ((matchLoop ra dec m gs).1).filter (fun g => galaxyPass ra dec m g) ∧
    ∀ g : GalaxyRecord,
      (matchedRecord ra dec g).oid = g.oid ∧
      (matchedRecord ra dec g).name = g.name ∧
      (matchedRecord ra dec g).ra = g.ra ∧
      (matchedRecord ra dec g).dec = g.dec ∧
      (matchedRecord ra dec g).a = g.a ∧
      (matchedRecord ra dec g).b2a = g.b2a ∧
      (matchedRecord ra dec g).pa = g.pa ∧
      (matchedRecord ra dec g).coordinates.radec_str = g.coordinates.radec_str ∧
      (matchedRecord ra dec g).coordinates.distance_arcsec =
        some (round2 (great_circle_distance ra dec g.ra g.dec * 3600)) :=
  ⟨matchLoop_fst ra dec m gs, matchLoop_snd_eq_fst_filter ra dec m gs,
    fun _ => ⟨rfl, rfl, rfl, rfl, rfl, rfl, rfl, rfl, rfl⟩⟩

/-- C9.  The loop is a stable filter: the emitted matches are exactly the
candidates that pass the ellipse decision, in input order, with no
deduplication or reordering, each carrying its written distance. -/
theorem claim9_stable_filter (ra dec m : ℝ) (gs : List GalaxyRecord) :
    (matchLoop ra dec m gs).2 =
      (gs.filter (fun g => galaxyPass ra dec m g)).map (matchedRecord ra dec) :=
  matchLoop_snd ra dec m gs

/-- C10.  Default substitution only affects the values fed to the ellipse
test: every emitted match stems from an input record, still carries that
record's raw shape fields (sentinels and NaN included), and its
`distance_arcsec` is the rounded great-circle distance; the test decision
for it was taken at the substituted values. -/
theorem claim10_raw_values_preserved (ra dec m : ℝ) (gs : List GalaxyRecord)
    (g : GalaxyRecord) (hg : g ∈ (matchLoop ra dec m gs).2) :
    ∃ g₀ ∈ gs,
      in_ellipse ra dec g₀.ra g₀.dec (m * substDefault g₀.a 0.0265889)
          (substDefault g₀.b2a 0.61) (substDefault g₀.pa 86.0) = true ∧
      g.a = g₀.a ∧ g.b2a = g₀.b2a ∧ g.pa = g₀.pa ∧
      g.coordinates.distance_arcsec =
        some (round2 (great_circle_distance ra dec g₀.ra g₀.dec * 3600)) := by
  rw [matchLoop_snd] at hg
  obtain ⟨g₀, hmem, rfl⟩ := List.mem_map.mp hg
  obtain ⟨hin, hpass⟩ := List.mem_filter.mp hmem
  exact ⟨g₀, hin, hpass, rfl, rfl, rfl, rfl⟩

/-- the NaN-shaped record used by the witness of C10. -/
def gDefaults : GalaxyRecord :=
  { oid := 1, name := "CGCG 146-027 NED01", ra := 0, dec := 0,
    a := RVal.nan, b2a := RVal.fin 1, pa := RVal.nan,
    coordinates := { radec_str := [], distance_arcsec := none } }

/-- the ellipse decision on `gDefaults` from the query point at its centre
with margin 3: after substitution the axis is `3 * 0.0265889` degrees. -/
lemma galaxyPass_gDefaults : galaxyPass 0 0 3 gDefaults = true := by
  show in_ellipse 0 0 gDefaults.ra gDefaults.dec
      (3 * substDefault gDefaults.a 0.0265889) (substDefault gDefaults.b2a 0.61)
      (substDefault gDefaults.pa 86.0) = true
  have ha : substDefault gDefaults.a 0.0265889 = 0.0265889 := rfl
  have hb : substDefault gDefaults.b2a 0.61 = 1 := by
    norm_num [substDefault, gDefaults]
  have hp : substDefault gDefaults.pa 86.0 = 86.0 := rfl
  rw [ha, hb, hp]
  exact in_ellipse_center_circle gDefaults.ra gDefaults.dec (3 * 0.0265889) 86.0
    (by norm_num) (by norm_num)

/-- witness for C10: the emitted match for the NaN-shaped record
`gDefaults` still carries `a = NaN` and `pa = NaN` while its test ran at
the substituted defaults. -/
theorem claim10_raw_values_preserved_witness :
    ∃ g₀ ∈ [gDefaults],
      in_ellipse 0 0 g₀.ra g₀.dec (3 * substDefault g₀.a 0.0265889)
          (substDefault g₀.b2a 0.61) (substDefault g₀.pa 86.0) = true ∧
      (matchedRecord 0 0 gDefaults).a = g₀.a ∧
      (matchedRecord 0 0 gDefaults).b2a = g₀.b2a ∧
      (matchedRecord 0 0 gDefaults).pa = g₀.pa ∧
      (matchedRecord 0 0 gDefaults).coordinates.distance_arcsec =
        some (round2 (great_circle_distance 0 0 g₀.ra g₀.dec * 3600)) := by
  apply claim10_raw_values_preserved 0 0 3 [gDefaults] (matchedRecord 0 0 gDefaults)
  rw [matchLoop_snd]
  simp [galaxyPass_gDefaults]

/-- the conversion layer of `in_ellipse_t63` made explicit. -/
lemma in_ellipse_t63_eq_core (alpha delta0 alpha1 delta01 d0 b2a PA0 : ℝ) :
    in_ellipse_t63 alpha delta0 alpha1 delta01 d0 b2a PA0 =
      t63core (cos ((alpha1 - alpha) * DEGRA)) (sin ((alpha1 - alpha) * DEGRA))
        (cos (delta01 * DEGRA)) (sin (delta01 * DEGRA))
        (cos (delta0 * DEGRA)) (sin (delta0 * DEGRA))
        (cos (d0 * DEGRA)) (sin (d0 * DEGRA))
        (cos (PA0 * DEGRA)) (sin (PA0 * DEGRA))
        (Real.sqrt (1 - b2a * b2a) * Real.sqrt (1 - b2a * b2a)) := rfl

/-- counterexample to C4 as stated: a `b2a = 1` ellipse of `a = 45` degrees
centred 60 degrees from the query point is hit with margin 2 (scaled axis
90 degrees) but missed with the larger margin 4 (scaled axis 180 degrees):
the polynomial depends on the axis only through `cos^2 d`, which is not
monotone past 90 degrees. -/
theorem claim4_margin_monotone_counterexample :
    in_ellipse 0 0 0 60 (2 * 45) 1 0 = true ∧
    in_ellipse 0 0 0 60 (4 * 45) 1 0 = false := by
  have hproxy : in_ellipse_proxy 0 0 0 60 = 1 / 2 := by
    rw [in_ellipse_proxy, show ((60 : ℝ)) * DEGRA = π / 3 by unfold DEGRA; ring,
      show (((0 : ℝ)) - 0) * DEGRA = 0 by ring,
      show ((0 : ℝ)) * DEGRA = 0 by ring]
    simp [Real.cos_pi_div_three]
  constructor
  · rw [in_ellipse_eq_true_iff]
    refine ⟨by rw [hproxy]; norm_num, ?_⟩
    rw [in_ellipse_t63_circle, hproxy,
      show (((2 : ℝ)) * 45) * DEGRA = π / 2 by unfold DEGRA; ring,
      Real.cos_pi_div_two]
    norm_num
  · have hp : ¬ in_ellipse_proxy 0 0 0 60 < 0 := by rw [hproxy]; norm_num
    have ht : in_ellipse_t63 0 0 0 60 (4 * 45) 1 0 = -(3 / 4) := by
      rw [in_ellipse_t63_circle, hproxy,
        show (((4 : ℝ)) * 45) * DEGRA = π by unfold DEGRA; ring,
        Real.cos_pi]
      norm_num
    simp only [in_ellipse, if_neg hp, ht, decide_eq_false_iff_not]
    norm_num

/-- C4, amended.  For a fixed point and ellipse, `in_ellipse` is monotone
in the margin as long as both scaled semi-major axes stay within `[0, 90]`
degrees: for `0 < a`, `0 < m1 ≤ m2` with `m2 * a ≤ 90`, a hit at scaled
axis `m1 * a` is still a hit at `m2 * a`. -/
theorem claim4_margin_monotone (alpha delta0 alpha1 delta01 a b2a PA0 m1 m2 : ℝ)
    (ha : 0 < a) (hm1 : 0 < m1) (h12 : m1 ≤ m2) (h90 : m2 * a ≤ 90)
    (h : in_ellipse alpha delta0 alpha1 delta01 (m1 * a) b2a PA0 = true) :
    in_ellipse alpha delta0 alpha1 delta01 (m2 * a) b2a PA0 = true := by
  rw [in_ellipse_eq_true_iff] at h ⊢
  obtain ⟨hp, ht⟩ := h
  refine ⟨hp, ?_⟩
  have key := t63core_d_diff (cos ((alpha1 - alpha) * DEGRA)) (sin ((alpha1 - alpha) * DEGRA))
    (cos (delta01 * DEGRA)) (sin (delta01 * DEGRA))
    (cos (delta0 * DEGRA)) (sin (delta0 * DEGRA))
    (cos ((m1 * a) * DEGRA)) (sin ((m1 * a) * DEGRA))
    (cos ((m2 * a) * DEGRA)) (sin ((m2 * a) * DEGRA))
    (cos (PA0 * DEGRA)) (sin (PA0 * DEGRA))
    (Real.sqrt (1 - b2a * b2a) * Real.sqrt (1 - b2a * b2a))
    (sin_sq_add_cos_sq _) (sin_sq_add_cos_sq _) (sin_sq_add_cos_sq _)
    (sin_sq_add_cos_sq _) (sin_sq_add_cos_sq _) (sin_sq_add_cos_sq _)
  rw [← in_ellipse_t63_eq_core, ← in_ellipse_t63_eq_core] at key
  have hE0 : 0 ≤ Real.sqrt (1 - b2a * b2a) * Real.sqrt (1 - b2a * b2a) :=
    mul_self_nonneg _
  have hE1 : Real.sqrt (1 - b2a * b2a) * Real.sqrt (1 - b2a * b2a) ≤ 1 :=
    e_sq_le_one b2a
  have hB : -(1 - Real.sqrt (1 - b2a * b2a) * Real.sqrt (1 - b2a * b2a)) -
      Real.sqrt (1 - b2a * b2a) * Real.sqrt (1 - b2a * b2a) *
        (cos (PA0 * DEGRA) * (sin ((alpha1 - alpha) * DEGRA) * cos (delta01 * DEGRA)) +
          sin (PA0 * DEGRA) * (cos ((alpha1 - alpha) * DEGRA) * cos (delta01 * DEGRA) *
            sin (delta0 * DEGRA) - sin (delta01 * DEGRA) * cos (delta0 * DEGRA))) ^ 2 ≤ 0 := by
    have hsq : 0 ≤ Real.sqrt (1 - b2a * b2a) * Real.sqrt (1 - b2a * b2a) *
        (cos (PA0 * DEGRA) * (sin ((alpha1 - alpha) * DEGRA) * cos (delta01 * DEGRA)) +
          sin (PA0 * DEGRA) * (cos ((alpha1 - alpha) * DEGRA) * cos (delta01 * DEGRA) *
            sin (delta0 * DEGRA) - sin (delta01 * DEGRA) * cos (delta0 * DEGRA))) ^ 2 :=
      mul_nonneg hE0 (sq_nonneg _)
    linarith
  have hpi180 : (0 : ℝ) < π / 180 := by positivity
  have hd1 : 0 ≤ (m1 * a) * DEGRA := by
    unfold DEGRA
    exact mul_nonneg (mul_nonneg hm1.le ha.le) hpi180.le
  have hdd : (m1 * a) * DEGRA ≤ (m2 * a) * DEGRA := by
    unfold DEGRA
    exact mul_le_mul_of_nonneg_right
      (mul_le_mul_of_nonneg_right h12 ha.le) hpi180.le
  have hd2 : (m2 * a) * DEGRA ≤ π / 2 := by
    unfold DEGRA
    calc (m2 * a) * (π / 180) ≤ 90 * (π / 180) :=
          mul_le_mul_of_nonneg_right h90 hpi180.le
      _ = π / 2 := by ring
  have hc2 : 0 ≤ cos ((m2 * a) * DEGRA) := by
    apply Real.cos_nonneg_of_mem_Icc
    constructor
    · linarith [Real.pi_pos]
    · exact hd2
  have hc12 : cos ((m2 * a) * DEGRA) ≤ cos ((m1 * a) * DEGRA) :=
    Real.cos_le_cos_of_nonneg_of_le_pi hd1 (by linarith [Real.pi_pos]) hdd
  have hcsq : cos ((m2 * a) * DEGRA) ^ 2 ≤ cos ((m1 * a) * DEGRA) ^ 2 :=
    pow_le_pow_left₀ hc2 hc12 2
  nlinarith [key, hB, hcsq, ht,
    mul_nonneg (neg_nonneg.2 hB)
      (by linarith : (0 : ℝ) ≤ cos ((m1 * a) * DEGRA) ^ 2 - cos ((m2 * a) * DEGRA) ^ 2)]

/-- witness for C4 (amended): a circle of `a = 30` degrees at the query
point is a hit at margin 1; the theorem lifts the hit to margin 3 (scaled
axis 90 degrees). -/
theorem claim4_margin_monotone_witness :
    in_ellipse 0 0 0 0 (1 * 30) 1 0 = true ∧
    in_ellipse 0 0 0 0 (3 * 30) 1 0 = true := by
  have h1 : in_ellipse 0 0 0 0 (1 * 30) 1 0 = true := by
    rw [show ((1 : ℝ)) * 30 = 30 by norm_num]
    exact in_ellipse_center_circle 0 0 30 0 (by norm_num) (by norm_num)
  exact ⟨h1, claim4_margin_monotone 0 0 0 0 30 1 0 1 3
    (by norm_num) (by norm_num) (by norm_num) (by norm_num) h1⟩

/-- C6.  `great_circle_distance` is symmetric in its two points, even
though the formula is syntactically asymmetric: the two arguments of the
arctangent are invariant under swapping the points. -/
theorem claim6_distance_symmetric (ra1 dec1 ra2 dec2 : ℝ) :
    great_circle_distance ra1 dec1 ra2 dec2 = great_circle_distance ra2 dec2 ra1 dec1 := by
  simp only [great_circle_distance]
  rw [abs_sub_comm (ra2 * DEGRA) (ra1 * DEGRA)]
  have hA : (cos (dec2 * DEGRA) * sin |ra1 * DEGRA - ra2 * DEGRA|) ^ 2 +
      (cos (dec1 * DEGRA) * sin (dec2 * DEGRA) -
        sin (dec1 * DEGRA) * cos (dec2 * DEGRA) * cos |ra1 * DEGRA - ra2 * DEGRA|) ^ 2 =
      (cos (dec1 * DEGRA) * sin |ra1 * DEGRA - ra2 * DEGRA|) ^ 2 +
      (cos (dec2 * DEGRA) * sin (dec1 * DEGRA) -
        sin (dec2 * DEGRA) * cos (dec1 * DEGRA) * cos |ra1 * DEGRA - ra2 * DEGRA|) ^ 2 := by
    have h1 := sin_sq_add_cos_sq |ra1 * DEGRA - ra2 * DEGRA|
    have h2 := sin_sq_add_cos_sq (dec1 * DEGRA)
    have h3 := sin_sq_add_cos_sq (dec2 * DEGRA)
    linear_combination (cos (dec2 * DEGRA) ^ 2 - cos (dec1 * DEGRA) ^ 2) * h1 +
      (cos |ra1 * DEGRA - ra2 * DEGRA| ^ 2 * cos (dec2 * DEGRA) ^ 2 -
        cos (dec2 * DEGRA) ^ 2) * h2 +
      (cos (dec1 * DEGRA) ^ 2 -
        cos |ra1 * DEGRA - ra2 * DEGRA| ^ 2 * cos (dec1 * DEGRA) ^ 2) * h3
  rw [hA]
  have hX : sin (dec1 * DEGRA) * sin (dec2 * DEGRA) +
      cos (dec1 * DEGRA) * cos (dec2 * DEGRA) * cos |ra1 * DEGRA - ra2 * DEGRA| =
      sin (dec2 * DEGRA) * sin (dec1 * DEGRA) +
      cos (dec2 * DEGRA) * cos (dec1 * DEGRA) * cos |ra1 * DEGRA - ra2 * DEGRA| := by
    ring
  rw [hX]

/-- on the unit circle with both coordinates nonnegative, `arctan2` lands
in the first quadrant and its cosine recovers the abscissa. -/
lemma arctan2_spec (y x : ℝ) (hy : 0 ≤ y) (hx : 0 ≤ x) (h1 : y ^ 2 + x ^ 2 = 1) :
    0 ≤ arctan2 y x ∧ arctan2 y x ≤ π / 2 ∧ cos (arctan2 y x) = x := by
  rcases lt_or_eq_of_le hx with hx' | hx'
  · rw [arctan2, if_pos hx']
    refine ⟨?_, (Real.arctan_lt_pi_div_two _).le, ?_⟩
    · have h0 : Real.arctan 0 ≤ Real.arctan (y / x) :=
        Real.arctan_strictMono.monotone (div_nonneg hy hx'.le)
      rwa [Real.arctan_zero] at h0
    · have hu2 : 1 + (y / x) ^ 2 = (1 / x) ^ 2 := by
        field_simp
        linear_combination h1
      rw [Real.cos_arctan, hu2, Real.sqrt_sq (by positivity), one_div_one_div]
  · have hy2 : y ^ 2 = 1 := by rw [← hx'] at h1; simpa using h1
    have hy1 : y = 1 := by
      have hz : (y - 1) * (y + 1) = 0 := by linear_combination hy2
      rcases mul_eq_zero.mp hz with hz | hz
      · linarith
      · linarith
    have harct : arctan2 y x = π / 2 := by
      rw [hy1, ← hx', arctan2]
      norm_num
    rw [harct, ← hx']
    exact ⟨by positivity, le_refl _, Real.cos_pi_div_two⟩

/-- C7.  In the circular case `b2a = 1`, a query point farther along the
great circle than the scaled radius `size_margin * a` (a nonnegative
margin and axis) is never inside. -/
theorem claim7_circle_far_reject (alpha delta0 alpha1 delta01 size_margin a PA0 : ℝ)
    (hm : 0 ≤ size_margin) (ha : 0 ≤ a)
    (hfar : great_circle_distance alpha delta0 alpha1 delta01 > size_margin * a) :
    in_ellipse alpha delta0 alpha1 delta01 (size_margin * a) 1 PA0 = false := by
  set Δ := |alpha1 * DEGRA - alpha * DEGRA| with hDdef
  set P := sin (delta0 * DEGRA) * sin (delta01 * DEGRA) +
      cos (delta0 * DEGRA) * cos (delta01 * DEGRA) * cos Δ with hPdef
  set X := (cos (delta01 * DEGRA) * sin Δ) ^ 2 +
      (cos (delta0 * DEGRA) * sin (delta01 * DEGRA) -
        sin (delta0 * DEGRA) * cos (delta01 * DEGRA) * cos Δ) ^ 2 with hXdef
  have hpp : in_ellipse_proxy alpha delta0 alpha1 delta01 = P := by
    rw [in_ellipse_proxy, hPdef, hDdef, Real.cos_abs,
      show alpha1 * DEGRA - alpha * DEGRA = (alpha1 - alpha) * DEGRA by ring]
    ring
  by_cases hP : P < 0
  · have hp' : in_ellipse_proxy alpha delta0 alpha1 delta01 < 0 := by
      rw [hpp]; exact hP
    simp [in_ellipse, hp']
  · push_neg at hP
    have hX0 : 0 ≤ X := by positivity
    have hXP : Real.sqrt X ^ 2 + P ^ 2 = 1 := by
      rw [Real.sq_sqrt hX0, hXdef, hPdef]
      have h1 := sin_sq_add_cos_sq Δ
      have h2 := sin_sq_add_cos_sq (delta0 * DEGRA)
      have h3 := sin_sq_add_cos_sq (delta01 * DEGRA)
      linear_combination (cos (delta01 * DEGRA) ^ 2) * h1 +
        (sin (delta01 * DEGRA) ^ 2 + cos Δ ^ 2 * cos (delta01 * DEGRA) ^ 2) * h2 + h3
    obtain ⟨hθ0, hθle, hθcos⟩ := arctan2_spec (Real.sqrt X) P (Real.sqrt_nonneg _) hP hXP
    have hgcd : great_circle_distance alpha delta0 alpha1 delta01 =
        arctan2 (Real.sqrt X) P * 180 / π := rfl
    have hθd : size_margin * a * DEGRA < arctan2 (Real.sqrt X) P := by
      rw [hgcd] at hfar
      unfold DEGRA
      calc size_margin * a * (π / 180) <
            (arctan2 (Real.sqrt X) P * 180 / π) * (π / 180) := by
            exact mul_lt_mul_of_pos_right hfar (by positivity)
        _ = arctan2 (Real.sqrt X) P := by
            field_simp
    have hd0 : 0 ≤ size_margin * a * DEGRA := by
      unfold DEGRA
      exact mul_nonneg (mul_nonneg hm ha) (by positivity)
    have hcos : cos (arctan2 (Real.sqrt X) P) < cos (size_margin * a * DEGRA) :=
      Real.cos_lt_cos_of_nonneg_of_le_pi hd0 (hθle.trans (by linarith [Real.pi_pos])) hθd
    have hPlt : P < cos (size_margin * a * DEGRA) := hθcos ▸ hcos
    have hp2 : ¬ in_ellipse_proxy alpha delta0 alpha1 delta01 < 0 := by
      rw [hpp]; exact not_lt.mpr hP
    have ht : in_ellipse_t63 alpha delta0 alpha1 delta01 (size_margin * a) 1 PA0 < 0 := by
      rw [in_ellipse_t63_circle, hpp]
      nlinarith [hPlt, hP]
    simp only [in_ellipse, if_neg hp2, decide_eq_false_iff_not]
    exact not_lt.mpr ht.le

/-- witness for C7: the query point at the origin is 90 degrees from a
centre at the pole, farther than the scaled radius `30 * 1`, and the
circle test rejects it. -/
theorem claim7_circle_far_reject_witness :
    great_circle_distance 0 0 0 90 > 30 * 1 ∧
    in_ellipse 0 0 0 90 (30 * 1) 1 7 = false := by
  have h2 : arctan2 1 0 = π / 2 := by rw [arctan2]; norm_num
  have hgcd : great_circle_distance 0 0 0 90 = 90 := by
    simp only [great_circle_distance, zero_mul, sub_self, abs_zero,
      show ((90 : ℝ)) * DEGRA = π / 2 by unfold DEGRA; ring,
      Real.cos_zero, Real.sin_zero, Real.cos_pi_div_two, Real.sin_pi_div_two]
    norm_num [Real.sqrt_one, h2]
    field_simp
    ring
  refine ⟨by rw [hgcd]; norm_num,
    claim7_circle_far_reject 0 0 0 90 30 1 7 (by norm_num) (by norm_num)
      (by rw [hgcd]; norm_num)⟩

end

end Ellipse
